import Mathlib

/-!
Shallow embedding of the web-scrobbler playback controller
(`controller.js`, the single source file of this repository) together with
proofs about its behaviour.

Modelling conventions:
* JavaScript values that may be `null`/`undefined`/absent become `Option`;
  JS truthiness of a string field is `strTruthy`, of a numeric field
  `natTruthy` (0 and the empty string are falsy).
* The asynchronous external collaborators (normalization pipeline,
  scrobble service, options store, threshold utility) are modelled by an
  `Env` record supplying the value each external call returns.
* Controller methods become pure functions `... → Controller → Except
  String (Controller × List Output)`: the `Output` list records, in
  order, every observer notification (mode-changed, track-updated,
  dispatched event) and every external call the method performs, and an
  `Except.error` models a thrown JS exception (thrown before any effect
  of the failing method takes place, exactly as in the straight-line
  source).  Pure helpers that cannot throw and notify nothing return
  plain values.
* `processNewState` in the source fires `processSong()` without awaiting
  it and then clears `isReplayingSong`; since `processSong` neither reads
  nor writes `isReplayingSong`, the embedding runs `processSong` to
  completion and then clears the flag, which yields the same final state.
-/

/-- Per-service outcome of a submission attempt (`service-call-result`). -/
inductive ServiceCallResult where
  | RESULT_OK
  | RESULT_IGNORE
  | RESULT_FAILURE
deriving DecidableEq, Repr

/-- Controller modes (`controller-mode`). -/
inductive ControllerMode where
  | Disabled
  | Base
  | Loading
  | Playing
  | Scrobbled
  | Ignored
  | Err
  | Unknown
  | Skipped
deriving DecidableEq, Repr

/-- Discrete controller events (`controller-event`). -/
inductive ControllerEvent where
  | ControllerReset
  | SongNowPlaying
  | SongScrobbled
  | SongUnrecognized
deriving DecidableEq, Repr

/-- JS truthiness of an optional string: `null`/`undefined` and `""` are falsy. -/
def strTruthy : Option String → Bool
  | none => false
  | some s => !(s == "")

/-- JS truthiness of an optional number: `null`/`undefined` and `0` are falsy. -/
def natTruthy : Option Nat → Bool
  | none => false
  | some n => !(n == 0)

/-- Connector state snapshot delivered to `onStateChanged` (the adapter
snapshot of the spec, section 6). -/
structure ConnectorState where
  artist : Option String
  track : Option String
  album : Option String
  uniqueID : Option String
  duration : Option Nat
  currentTime : Option Nat
  isPlaying : Bool
  trackArt : Option String
  isPodcast : Bool
deriving DecidableEq, Repr

/-- `isStateEmpty` from the source:
`!(state.artist && state.track) && !state.uniqueID && !state.duration`. -/
def isStateEmpty (state : ConnectorState) : Bool :=
  !(strTruthy state.artist && strTruthy state.track)
    && !(strTruthy state.uniqueID) && !(natTruthy state.duration)

/-- `isAnyResult` from the source: `results.some((r) => r === result)`. -/
def isAnyResult (results : List ServiceCallResult) (result : ServiceCallResult) : Bool :=
  results.any (fun r => r == result)

/-- `areAllResults` from the source: `false` on an empty array, otherwise
`results.every((r) => r === result)`. -/
def areAllResults (results : List ServiceCallResult) (result : ServiceCallResult) : Bool :=
  if results.length == 0 then
    false
  else
    results.all (fun r => r == result)

/-- Lifecycle flags of a track entity.  Modelled from the spec: the `Song`
object (`object/song`) is not among the source files; the spec, section 3,
lists exactly these boolean flags, all initially false. -/
structure SongFlags where
  isSkipped : Bool := false
  isReplaying : Bool := false
  isScrobbled : Bool := false
  isMarkedAsPlaying : Bool := false
deriving DecidableEq, Repr

/-- Field bundle of a track entity (used both for the raw adapter-provided
values and for the entity's own parsed copy).  Modelled from the spec,
section 3: artist, track title, album, unique identifier, duration,
current position, playing flag, cover-art reference. -/
structure SongData where
  artist : Option String
  track : Option String
  album : Option String
  uniqueID : Option String
  duration : Option Nat
  currentTime : Option Nat
  isPlaying : Bool
  trackArt : Option String
deriving DecidableEq, Repr

/-- Track entity.  Modelled from the spec, section 3: raw values come from
the adapter snapshot, parsed values are the entity's own independently
mutable copy, plus the lifecycle flags. -/
structure Song where
  raw : SongData
  parsed : SongData
  flags : SongFlags
deriving DecidableEq, Repr

/-- Field bundle extracted from a connector snapshot. -/
def SongData.fromState (s : ConnectorState) : SongData :=
  { artist := s.artist, track := s.track, album := s.album,
    uniqueID := s.uniqueID, duration := s.duration,
    currentTime := s.currentTime, isPlaying := s.isPlaying,
    trackArt := s.trackArt }

/-- `new Song(newState, connector)`: raw and parsed start as copies of the
snapshot fields, all flags false.  Modelled from the spec, section 3. -/
def Song.fromState (s : ConnectorState) : Song :=
  { raw := SongData.fromState s, parsed := SongData.fromState s, flags := {} }

/-- `song.resetInfo()`: re-derive the parsed values from the
adapter-provided raw fields.  Modelled from the spec, section 4.7. -/
def Song.resetInfo (song : Song) : Song :=
  { song with parsed := song.raw }

/-- `song.resetData()`: discard processed data, restoring the parsed
values from the raw fields.  Modelled from the spec (re-entering
normalization starts over from the adapter-provided fields). -/
def Song.resetData (song : Song) : Song :=
  { song with parsed := song.raw }

/-- `song.getDuration()`: the parsed duration.  Modelled from the spec,
section 4.4 (timer sizing uses the track duration of the entity). -/
def Song.getDuration (song : Song) : Option Nat :=
  song.parsed.duration

/-- Countdown timer (`object/timer`).  Modelled from the spec, sections 2
and 3: a duration target in seconds or unset, a running/paused state, and
whether the timer has already elapsed and fired its callback. -/
structure Timer where
  target : Option Int := none
  expired : Bool := false
  paused : Bool := false
deriving DecidableEq, Repr

/-- `timer.start(callback)`: fresh unexpired running timer with no target.
Modelled from the spec (a timer with no duration target never fires). -/
def Timer.start : Timer := {}

/-- `timer.reset()`: clears elapsed time, target and pending firing.
Modelled from the spec, section 3. -/
def Timer.resetTimer : Timer := {}

/-- `timer.update(seconds)`: set (or unset, on `null`) the duration
target of an already-running timer.  Modelled from the spec, section 4.4. -/
def Timer.update (t : Timer) (v : Option Int) : Timer :=
  { t with target := v }

/-- `timer.pause()`.  Modelled from the spec: pausing preserves elapsed
time. -/
def Timer.pause (t : Timer) : Timer :=
  { t with paused := true }

/-- `timer.resume()`. -/
def Timer.resume (t : Timer) : Timer :=
  { t with paused := false }

/-- `timer.isExpired()`: whether the timer has already elapsed.  Modelled
from the spec, section 4.4. -/
def Timer.isExpired (t : Timer) : Bool :=
  t.expired

/-- Everything the controller reports outward, in order: observer
notifications (`onModeChanged`, `onControllerEvent`, `onSongUpdated`) and
the external calls it performs (`ScrobbleService.sendNowPlaying`,
`ScrobbleService.scrobble`, `SavedEdits.saveSongInfo`,
`SavedEdits.removeSongInfo`), each recording the argument passed. -/
inductive Output where
  | modeChanged (mode : ControllerMode)
  | event (e : ControllerEvent)
  | songUpdated
  | sendNowPlayingCall (song : Song)
  | scrobbleCall (song : Song)
  | saveSongInfoCall (song : Song) (data : SongData)
  | removeSongInfoCall (song : Song)
deriving DecidableEq, Repr

/-- Return values of the external asynchronous collaborators, per call:
what `pipeline.process` resolves to, what `currentSong.isValid()` reports
after processing, what `Util.getSecondsToScrobble(duration, percent)`
computes (with the configured percentage folded in; `-1` means "too short
to scrobble"), and the per-service outcome collections returned by the
scrobble service. -/
structure Env where
  pipelineOk : Bool
  songValid : Bool
  getSecondsToScrobble : Option Nat → Int
  sendNowPlaying : Song → List ServiceCallResult
  scrobble : Song → List ServiceCallResult

/-- Mutable state of a `Controller` instance (tab id and connector match
object omitted: they are only used for logging). -/
structure Controller where
  isEnabled : Bool
  mode : ControllerMode
  playbackTimer : Timer
  replayDetectionTimer : Timer
  currentSong : Option Song
  isReplayingSong : Bool
  shouldScrobblePodcasts : Bool
deriving DecidableEq, Repr

/-- Result of one controller method: either a thrown exception (its
message) or the new controller state together with the ordered outputs. -/
abbrev CtrlResult := Except String (Controller × List Output)

namespace Controller

/-- `setMode(mode)`: store the mode and notify `onModeChanged`.  (The
`throw` on a falsy mode argument is unreachable here: `ControllerMode` has
no null value.) -/
def setMode (mode : ControllerMode) (st : Controller) : Controller × List Output :=
  ({ st with mode := mode }, [Output.modeChanged mode])

/-- `dispatchEvent(event)`: notify `onControllerEvent`.  (The `throw` on a
falsy event argument is likewise unreachable.) -/
def dispatchEvent (e : ControllerEvent) (st : Controller) : Controller × List Output :=
  (st, [Output.event e])

/-- `assertSongIsPlaying()`: throw `"No song is now playing"` unless a
track is current; returns the current song on success. -/
def assertSongIsPlaying (st : Controller) : Except String Song :=
  match st.currentSong with
  | none => Except.error "No song is now playing"
  | some song => Except.ok song

/-- `resetState()`: dispatch `ControllerReset`, reset both timers, drop
the current song. -/
def resetState (st : Controller) : Controller × List Output :=
  ({ st with
      playbackTimer := Timer.resetTimer,
      replayDetectionTimer := Timer.resetTimer,
      currentSong := none },
    [Output.event ControllerEvent.ControllerReset])

/-- `reset()`: `resetState()` then `setMode(Base)`. -/
def reset (st : Controller) : Controller × List Output :=
  let (st1, o1) := resetState st
  let (st2, o2) := setMode ControllerMode.Base st1
  (st2, o1 ++ o2)

/-- `isSongChanged(newState)`: true when no track is current, otherwise
strict inequality on any of artist, track, album, uniqueID between the
snapshot and the current song's parsed values. -/
def isSongChanged (st : Controller) (newState : ConnectorState) : Bool :=
  match st.currentSong with
  | none => true
  | some song =>
    !(newState.artist == song.parsed.artist)
      || !(newState.track == song.parsed.track)
      || !(newState.album == song.parsed.album)
      || !(newState.uniqueID == song.parsed.uniqueID)

/-- `isNeedToUpdateDuration(newState)`:
`newState.duration && this.currentSong.parsed.duration !== newState.duration`. -/
def isNeedToUpdateDuration (song : Song) (newState : ConnectorState) : Bool :=
  natTruthy newState.duration && !(song.parsed.duration == newState.duration)

/-- `updateTimers(duration)`: a warning-logged no-op when the playback
timer has already expired; otherwise compute the seconds-to-scrobble
threshold and, unless it signals `-1` ("too short to scrobble", log-only),
set the playback timer's target to it and the replay-detection timer's
target to the full duration. -/
def updateTimers (env : Env) (duration : Option Nat) (st : Controller) : Controller :=
  if st.playbackTimer.isExpired then
    st
  else
    let secondsToScrobble := env.getSecondsToScrobble duration
    if !(secondsToScrobble == -1) then
      { st with
          playbackTimer := st.playbackTimer.update (some secondsToScrobble),
          replayDetectionTimer := st.replayDetectionTimer.update (duration.map Int.ofNat) }
    else
      st

/-- `setSongNowPlaying()`: flag the current song as marked-as-playing,
then call `ScrobbleService.sendNowPlaying` with it; mode `Playing` if any
result is `RESULT_OK`, else mode `Err`; dispatch `SongNowPlaying`
afterward in both cases. -/
def setSongNowPlaying (env : Env) (st : Controller) : CtrlResult :=
  match st.currentSong with
  | none => Except.error "TypeError: currentSong is null"
  | some song =>
    let song := { song with flags := { song.flags with isMarkedAsPlaying := true } }
    let st := { st with currentSong := some song }
    let results := env.sendNowPlaying song
    let (st, o1) :=
      if isAnyResult results ServiceCallResult.RESULT_OK then
        setMode ControllerMode.Playing st
      else
        setMode ControllerMode.Err st
    Except.ok (st, Output.sendNowPlayingCall song :: o1 ++ [Output.event ControllerEvent.SongNowPlaying])

/-- `setSongNotRecognized()`: mode `Unknown`, dispatch `SongUnrecognized`. -/
def setSongNotRecognized (st : Controller) : Controller × List Output :=
  let (st1, o1) := setMode ControllerMode.Unknown st
  (st1, o1 ++ [Output.event ControllerEvent.SongUnrecognized])

/-- `scrobbleSong()`: call `ScrobbleService.scrobble` with the current
song; on any `RESULT_OK` flag the song scrobbled, set mode `Scrobbled`,
notify `onSongUpdated`, dispatch `SongScrobbled`; else mode `Ignored`
when all results are `RESULT_IGNORE`, else mode `Err`. -/
def scrobbleSong (env : Env) (st : Controller) : CtrlResult :=
  match st.currentSong with
  | none => Except.error "TypeError: currentSong is null"
  | some song =>
    let results := env.scrobble song
    if isAnyResult results ServiceCallResult.RESULT_OK then
      let song2 := { song with flags := { song.flags with isScrobbled := true } }
      let st := { st with currentSong := some song2 }
      let (st, o1) := setMode ControllerMode.Scrobbled st
      Except.ok (st, Output.scrobbleCall song :: o1 ++ [Output.songUpdated, Output.event ControllerEvent.SongScrobbled])
    else if areAllResults results ServiceCallResult.RESULT_IGNORE then
      let (st, o1) := setMode ControllerMode.Ignored st
      Except.ok (st, Output.scrobbleCall song :: o1)
    else
      let (st, o1) := setMode ControllerMode.Err st
      Except.ok (st, Output.scrobbleCall song :: o1)

/-- `skipCurrentSong()`: assert a song is current, set mode `Skipped`,
flag it skipped, reset both timers, notify `onSongUpdated`. -/
def skipCurrentSong (st : Controller) : CtrlResult :=
  match st.currentSong with
  | none => Except.error "No song is now playing"
  | some song =>
    let (st, o1) := setMode ControllerMode.Skipped st
    let song := { song with flags := { song.flags with isSkipped := true } }
    let st := { st with
        currentSong := some song,
        playbackTimer := Timer.resetTimer,
        replayDetectionTimer := Timer.resetTimer }
    Except.ok (st, o1 ++ [Output.songUpdated])

/-- `processSong()`: set mode `Loading`; if `pipeline.process` resolves
false, stop there; otherwise, when the song is valid, clear the
marked-as-playing flag, update the timers from the song duration, and
either submit now-playing (timer not yet expired), merely dispatch
`SongNowPlaying` (timer already expired), or fall back to mode `Base`
(not playing); when the song is invalid, `setSongNotRecognized`; finally
notify `onSongUpdated`. -/
def processSong (env : Env) (st : Controller) : CtrlResult :=
  let (st, o1) := setMode ControllerMode.Loading st
  if !env.pipelineOk then
    Except.ok (st, o1)
  else
    match st.currentSong with
    | none => Except.error "TypeError: currentSong is null"
    | some song =>
      if env.songValid then
        let song := { song with flags := { song.flags with isMarkedAsPlaying := false } }
        let st := { st with currentSong := some song }
        let st := updateTimers env song.getDuration st
        if song.parsed.isPlaying then
          if !st.playbackTimer.isExpired then
            match setSongNowPlaying env st with
            | Except.error e => Except.error e
            | Except.ok (st, o2) => Except.ok (st, o1 ++ o2 ++ [Output.songUpdated])
          else
            Except.ok (st, o1 ++ [Output.event ControllerEvent.SongNowPlaying, Output.songUpdated])
        else
          let (st, o2) := setMode ControllerMode.Base st
          Except.ok (st, o1 ++ o2 ++ [Output.songUpdated])
      else
        let (st, o2) := setSongNotRecognized st
        Except.ok (st, o1 ++ o2 ++ [Output.songUpdated])

/-- `unprocessSong()`: reset the song's processed data and clear both
timers' destination times (`update(null)`). -/
def unprocessSong (st : Controller) : CtrlResult :=
  match st.currentSong with
  | none => Except.error "TypeError: currentSong is null"
  | some song =>
    Except.ok ({ st with
        currentSong := some song.resetData,
        playbackTimer := st.playbackTimer.update none,
        replayDetectionTimer := st.replayDetectionTimer.update none }, [])

/-- `onPlayingStateChanged(value)`: on resume, resume both timers and
either submit now-playing (song valid and not yet marked as playing) or
re-emit the current mode; on pause, pause both timers. -/
def onPlayingStateChanged (env : Env) (value : Bool) (st : Controller) : CtrlResult :=
  if value then
    let st := { st with
        playbackTimer := st.playbackTimer.resume,
        replayDetectionTimer := st.replayDetectionTimer.resume }
    match st.currentSong with
    | none => Except.error "TypeError: currentSong is null"
    | some song =>
      if !song.flags.isMarkedAsPlaying && env.songValid then
        setSongNowPlaying env st
      else
        Except.ok (setMode st.mode st)
  else
    Except.ok ({ st with
        playbackTimer := st.playbackTimer.pause,
        replayDetectionTimer := st.replayDetectionTimer.pause }, [])

/-- `updateSongDuration(duration)`: store the new parsed duration and,
when the song is valid, re-apply `updateTimers`. -/
def updateSongDuration (env : Env) (duration : Option Nat) (st : Controller) : CtrlResult :=
  match st.currentSong with
  | none => Except.error "TypeError: currentSong is null"
  | some song =>
    let song := { song with parsed := { song.parsed with duration := duration } }
    let st := { st with currentSong := some song }
    if env.songValid then
      Except.ok (updateTimers env duration st, [])
    else
      Except.ok (st, [])

/-- `processCurrentState(newState)`: skip entirely for a skipped song;
otherwise copy position, playing flag and cover art onto the parsed
fields, conditionally update the duration, and react to a playing-flag
transition. -/
def processCurrentState (env : Env) (newState : ConnectorState) (st : Controller) : CtrlResult :=
  match st.currentSong with
  | none => Except.error "TypeError: currentSong is null"
  | some song =>
    if song.flags.isSkipped then
      Except.ok (st, [])
    else
      let isPlayingStateChanged := !(song.parsed.isPlaying == newState.isPlaying)
      let song := { song with parsed := { song.parsed with
          currentTime := newState.currentTime,
          isPlaying := newState.isPlaying,
          trackArt := newState.trackArt } }
      let st := { st with currentSong := some song }
      let step1 : CtrlResult :=
        if isNeedToUpdateDuration song newState then
          updateSongDuration env newState.duration st
        else
          Except.ok (st, [])
      match step1 with
      | Except.error e => Except.error e
      | Except.ok (st, o1) =>
        if isPlayingStateChanged then
          match onPlayingStateChanged env newState.isPlaying st with
          | Except.error e => Except.error e
          | Except.ok (st, o2) => Except.ok (st, o1 ++ o2)
        else
          Except.ok (st, o1)

/-- `processNewState(newState)`: full reset, build a fresh song carrying
the pending replay flag; podcasts are skipped outright when podcast
scrobbling is off; otherwise start both timers (pausing them at once if
the snapshot is not playing), run `processSong`, and clear the replay
signal. -/
def processNewState (env : Env) (newState : ConnectorState) (st : Controller) : CtrlResult :=
  let (st, o0) := resetState st
  let song := Song.fromState newState
  let song := { song with flags := { song.flags with isReplaying := st.isReplayingSong } }
  let st := { st with currentSong := some song }
  if !st.shouldScrobblePodcasts && newState.isPodcast then
    match skipCurrentSong st with
    | Except.error e => Except.error e
    | Except.ok (st, o1) => Except.ok (st, o0 ++ o1)
  else
    let st := { st with
        playbackTimer := Timer.start,
        replayDetectionTimer := Timer.start }
    let st :=
      if !newState.isPlaying then
        { st with
            playbackTimer := st.playbackTimer.pause,
            replayDetectionTimer := st.replayDetectionTimer.pause }
      else
        st
    match processSong env st with
    | Except.error e => Except.error e
    | Except.ok (st, o1) => Except.ok ({ st with isReplayingSong := false }, o0 ++ o1)

/-- `onStateChanged(newState)`: ignore everything while disabled; an
empty snapshot resets if a track was current (log-only warning when the
snapshot claims playing); a changed-or-replaying snapshot starts fresh
tracking when playing and resets otherwise; an unchanged snapshot is an
ongoing-playback update. -/
def onStateChanged (env : Env) (newState : ConnectorState) (st : Controller) : CtrlResult :=
  if !st.isEnabled then
    Except.ok (st, [])
  else if isStateEmpty newState then
    if st.currentSong.isSome then
      Except.ok (reset st)
    else
      Except.ok (st, [])
  else
    if isSongChanged st newState || st.isReplayingSong then
      if newState.isPlaying then
        processNewState env newState st
      else
        Except.ok (reset st)
    else
      processCurrentState env newState st

/-- `resetSongData()`: assert a song is current, reset its info, remove
the saved edits externally, then `unprocessSong` and `processSong`. -/
def resetSongData (env : Env) (st : Controller) : CtrlResult :=
  match st.currentSong with
  | none => Except.error "No song is now playing"
  | some song =>
    let song := song.resetInfo
    let st := { st with currentSong := some song }
    let o1 := [Output.removeSongInfoCall song]
    match unprocessSong st with
    | Except.error e => Except.error e
    | Except.ok (st, o2) =>
      match processSong env st with
      | Except.error e => Except.error e
      | Except.ok (st, o3) => Except.ok (st, o1 ++ o2 ++ o3)

/-- `setUserSongData(data)`: assert a song is current, throw for an
already-scrobbled song, otherwise save the edit externally, then
`unprocessSong` and `processSong`. -/
def setUserSongData (env : Env) (data : SongData) (st : Controller) : CtrlResult :=
  match st.currentSong with
  | none => Except.error "No song is now playing"
  | some song =>
    if song.flags.isScrobbled then
      Except.error "Unable to set user data for scrobbled song"
    else
      let o1 := [Output.saveSongInfoCall song data]
      match unprocessSong st with
      | Except.error e => Except.error e
      | Except.ok (st, o2) =>
        match processSong env st with
        | Except.error e => Except.error e
        | Except.ok (st, o3) => Except.ok (st, o1 ++ o2 ++ o3)

end Controller

/-- Sample song fields used by the concrete witnesses below. -/
def sampleData : SongData :=
  { artist := some "Artist", track := some "Track", album := some "Album",
    uniqueID := none, duration := some 300, currentTime := some 5,
    isPlaying := true, trackArt := none }

/-- Sample track entity. -/
def sampleSong : Song :=
  { raw := sampleData, parsed := sampleData, flags := {} }

/-- Environment where every external collaborator succeeds. -/
def envAllOk : Env :=
  { pipelineOk := true, songValid := true,
    getSecondsToScrobble := fun _ => 150,
    sendNowPlaying := fun _ => [ServiceCallResult.RESULT_OK],
    scrobble := fun _ => [ServiceCallResult.RESULT_OK] }

/-- Environment where `pipeline.process` resolves `false`. -/
def envNoPipeline : Env :=
  { envAllOk with pipelineOk := false, songValid := false }

/-- Environment where `pipeline.process` resolves `true` but the song is
not valid. -/
def envInvalidSong : Env :=
  { envAllOk with songValid := false }

/-- Enabled controller currently tracking `sampleSong`. -/
def ctrlBase : Controller :=
  { isEnabled := true, mode := ControllerMode.Playing,
    playbackTimer := {}, replayDetectionTimer := {},
    currentSong := some sampleSong, isReplayingSong := false,
    shouldScrobblePodcasts := true }

/-- Enabled controller with no current track. -/
def ctrlNoSong : Controller :=
  { ctrlBase with currentSong := none, mode := ControllerMode.Base }

/-- Controller whose playback timer has already expired. -/
def ctrlExpiredTimer : Controller :=
  { ctrlBase with playbackTimer := { target := some 150, expired := true } }

/-- Controller tracking an already-scrobbled song. -/
def ctrlScrobbled : Controller :=
  { ctrlBase with
      currentSong := some { sampleSong with flags := { sampleSong.flags with isScrobbled := true } },
      mode := ControllerMode.Scrobbled }

/-- Controller with a pending replay signal and podcast scrobbling off. -/
def ctrlReplayPodcastOff : Controller :=
  { ctrlBase with isReplayingSong := true, shouldScrobblePodcasts := false }

/-- Podcast snapshot. -/
def podcastState : ConnectorState :=
  { artist := some "Artist", track := some "Track", album := some "Album",
    uniqueID := none, duration := some 300, currentTime := some 0,
    isPlaying := true, trackArt := none, isPodcast := true }

/-- Snapshot with no artist, track, uniqueID or duration. -/
def emptyState : ConnectorState :=
  { artist := none, track := none, album := none, uniqueID := none,
    duration := none, currentTime := some 3, isPlaying := true,
    trackArt := none, isPodcast := false }

/-- JS-truthy presence of an optional string field. -/
def jsPresentStr (o : Option String) : Prop :=
  ∃ v, o = some v ∧ v ≠ ""

/-- JS-truthy presence of an optional numeric field. -/
def jsPresentNat (o : Option Nat) : Prop :=
  ∃ n, o = some n ∧ n ≠ 0

theorem strTruthy_eq_true_iff (o : Option String) : strTruthy o = true ↔ jsPresentStr o := by
  cases o <;> simp [strTruthy, jsPresentStr]

theorem natTruthy_eq_true_iff (o : Option Nat) : natTruthy o = true ↔ jsPresentNat o := by
  cases o <;> simp [natTruthy, jsPresentNat]

/-- C5: `isAnyResult` is true iff some element equals the target;
`areAllResults` is true iff the list is non-empty and every element
equals the target; in particular `[]` is not all-ignored, `[OK]` is
any-OK, `[IGNORE, IGNORE]` is all-ignored but not any-OK, and
`[OK, FAILURE]` is any-OK. -/
theorem result_aggregation_spec (results : List ServiceCallResult) (result : ServiceCallResult) :
    (isAnyResult results result = true ↔ ∃ r ∈ results, r = result) ∧
    (areAllResults results result = true ↔ results ≠ [] ∧ ∀ r ∈ results, r = result) ∧
    areAllResults [] ServiceCallResult.RESULT_IGNORE = false ∧
    isAnyResult [ServiceCallResult.RESULT_OK] ServiceCallResult.RESULT_OK = true ∧
    areAllResults [ServiceCallResult.RESULT_IGNORE, ServiceCallResult.RESULT_IGNORE]
      ServiceCallResult.RESULT_IGNORE = true ∧
    isAnyResult [ServiceCallResult.RESULT_IGNORE, ServiceCallResult.RESULT_IGNORE]
      ServiceCallResult.RESULT_OK = false ∧
    isAnyResult [ServiceCallResult.RESULT_OK, ServiceCallResult.RESULT_FAILURE]
      ServiceCallResult.RESULT_OK = true := by
  refine ⟨?_, ?_, by decide, by decide, by decide, by decide, by decide⟩
  · simp [isAnyResult, List.any_eq_true]
  · cases results with
    | nil => simp [areAllResults]
    | cons r rs => simp [areAllResults, List.all_eq_true]

/-- Closed instance of `result_aggregation_spec`. -/
theorem result_aggregation_spec_witness :
    isAnyResult [ServiceCallResult.RESULT_OK, ServiceCallResult.RESULT_FAILURE]
      ServiceCallResult.RESULT_OK = true :=
  (result_aggregation_spec [] ServiceCallResult.RESULT_OK).2.2.2.2.2.2

/-- C7: when the playback timer has already expired, `updateTimers` is a
no-op (apart from a warning log): neither the playback timer's target nor
the replay-detection timer's target — indeed no part of the controller
state — changes. -/
theorem updateTimers_expired_noop (env : Env) (duration : Option Nat) (st : Controller)
    (h : st.playbackTimer.isExpired = true) :
    Controller.updateTimers env duration st = st := by
  unfold Controller.updateTimers
  simp [h]

/-- Closed instance of `updateTimers_expired_noop`. -/
theorem updateTimers_expired_noop_witness :
    ctrlExpiredTimer.playbackTimer.isExpired = true ∧
    Controller.updateTimers envAllOk (some 300) ctrlExpiredTimer = ctrlExpiredTimer :=
  ⟨rfl, updateTimers_expired_noop envAllOk (some 300) ctrlExpiredTimer rfl⟩

/-- C4: `isSongChanged` is true whenever no current track exists, and
with a current track it is true iff at least one of artist, track, album,
uniqueID of the snapshot differs from the current track's parsed value of
that field; in particular snapshots differing only in currentTime,
trackArt or isPlaying (all four identity fields equal) yield false. -/
theorem isSongChanged_spec (st : Controller) (s : ConnectorState) :
    (st.currentSong = none → Controller.isSongChanged st s = true) ∧
    (∀ song, st.currentSong = some song →
      (Controller.isSongChanged st s = true ↔
        (s.artist ≠ song.parsed.artist ∨ s.track ≠ song.parsed.track ∨
         s.album ≠ song.parsed.album ∨ s.uniqueID ≠ song.parsed.uniqueID))) := by
  constructor
  · intro h
    simp [Controller.isSongChanged, h]
  · intro song h
    simp [Controller.isSongChanged, h]
    tauto

/-- Closed instance of `isSongChanged_spec`: no current track, and a
snapshot differing from `sampleSong` only in `currentTime`/`isPlaying`. -/
theorem isSongChanged_spec_witness :
    Controller.isSongChanged ctrlNoSong podcastState = true ∧
    Controller.isSongChanged ctrlBase
      { artist := some "Artist", track := some "Track", album := some "Album",
        uniqueID := none, duration := some 300, currentTime := some 250,
        isPlaying := false, trackArt := none, isPodcast := false } = false := by
  constructor
  · exact (isSongChanged_spec ctrlNoSong podcastState).1 rfl
  · have h := ((isSongChanged_spec ctrlBase
      { artist := some "Artist", track := some "Track", album := some "Album",
        uniqueID := none, duration := some 300, currentTime := some 250,
        isPlaying := false, trackArt := none, isPodcast := false }).2 sampleSong rfl)
    cases hc : Controller.isSongChanged ctrlBase
      { artist := some "Artist", track := some "Track", album := some "Album",
        uniqueID := none, duration := some 300, currentTime := some 250,
        isPlaying := false, trackArt := none, isPodcast := false }
    · rfl
    · exact absurd (h.mp hc) (by decide)

theorem updateTimers_currentSong (env : Env) (d : Option Nat) (st : Controller) :
    (Controller.updateTimers env d st).currentSong = st.currentSong := by
  unfold Controller.updateTimers
  dsimp only
  split
  · rfl
  · split <;> rfl

theorem processSong_ok_loading (env : Env) (st : Controller) (song : Song)
    (h : st.currentSong = some song) :
    ∃ st' o, Controller.processSong env st =
      Except.ok (st', Output.modeChanged ControllerMode.Loading :: o) := by
  unfold Controller.processSong Controller.setSongNowPlaying
  simp only [Controller.setMode, Controller.setSongNotRecognized, h, updateTimers_currentSong,
    List.cons_append, List.nil_append, List.append_assoc]
  split
  · exact ⟨_, _, rfl⟩
  · split
    · split
      · split
        · exact ⟨_, _, rfl⟩
        · exact ⟨_, _, rfl⟩
      · exact ⟨_, _, rfl⟩
    · exact ⟨_, _, rfl⟩

theorem processSong_ne_error (env : Env) (st : Controller) (song : Song)
    (h : st.currentSong = some song) (e : String) :
    Controller.processSong env st ≠ Except.error e := by
  obtain ⟨st', o, heq⟩ := processSong_ok_loading env st song h
  simp [heq]

/-- C1: for every outcome collection returned by the scrobble submission,
`scrobbleSong` sets the current entity's `isScrobbled` flag, sets mode
`Scrobbled`, notifies track-updated (`onSongUpdated`) and dispatches
`SongScrobbled` exactly when at least one outcome is `RESULT_OK`;
otherwise mode `Ignored` when the collection is non-empty and uniformly
`RESULT_IGNORE` (`areAllResults`), otherwise mode `Err`; in the `Ignored`
and `Err` cases the state change is the mode alone, so the entity and its
flags are unchanged and neither `onSongUpdated` nor `SongScrobbled`
occurs. -/
theorem scrobbleSong_outcome_spec (env : Env) (st : Controller) (song : Song)
    (h : st.currentSong = some song) :
    (isAnyResult (env.scrobble song) ServiceCallResult.RESULT_OK = true →
      Controller.scrobbleSong env st =
        Except.ok ({ st with
            mode := ControllerMode.Scrobbled,
            currentSong := some { song with flags := { song.flags with isScrobbled := true } } },
          [Output.scrobbleCall song, Output.modeChanged ControllerMode.Scrobbled,
           Output.songUpdated, Output.event ControllerEvent.SongScrobbled])) ∧
    (isAnyResult (env.scrobble song) ServiceCallResult.RESULT_OK = false →
      areAllResults (env.scrobble song) ServiceCallResult.RESULT_IGNORE = true →
      Controller.scrobbleSong env st =
        Except.ok ({ st with mode := ControllerMode.Ignored },
          [Output.scrobbleCall song, Output.modeChanged ControllerMode.Ignored])) ∧
    (isAnyResult (env.scrobble song) ServiceCallResult.RESULT_OK = false →
      areAllResults (env.scrobble song) ServiceCallResult.RESULT_IGNORE = false →
      Controller.scrobbleSong env st =
        Except.ok ({ st with mode := ControllerMode.Err },
          [Output.scrobbleCall song, Output.modeChanged ControllerMode.Err])) := by
  refine ⟨?_, ?_, ?_⟩
  · intro hok
    simp [Controller.scrobbleSong, h, hok, Controller.setMode]
  · intro hok hall
    simp [Controller.scrobbleSong, h, hok, hall, Controller.setMode]
  · intro hok hall
    simp [Controller.scrobbleSong, h, hok, hall, Controller.setMode]

/-- Closed instance of `scrobbleSong_outcome_spec` (the success case). -/
theorem scrobbleSong_outcome_spec_witness :
    Controller.scrobbleSong envAllOk ctrlBase =
      Except.ok ({ ctrlBase with
          mode := ControllerMode.Scrobbled,
          currentSong := some { sampleSong with flags := { sampleSong.flags with isScrobbled := true } } },
        [Output.scrobbleCall sampleSong, Output.modeChanged ControllerMode.Scrobbled,
         Output.songUpdated, Output.event ControllerEvent.SongScrobbled]) :=
  (scrobbleSong_outcome_spec envAllOk ctrlBase sampleSong rfl).1 rfl

/-- C2: `setSongNowPlaying` sets the entity's `isMarkedAsPlaying` flag to
true before invoking the external `sendNowPlaying` call (the call log
records the already-flagged song), sets mode `Playing` when at least one
returned outcome is `RESULT_OK` and mode `Err` otherwise, and dispatches
`SongNowPlaying` last in both cases, regardless of outcome. -/
theorem setSongNowPlaying_spec (env : Env) (st : Controller) (song : Song)
    (h : st.currentSong = some song) :
    ∃ song' m, song' = { song with flags := { song.flags with isMarkedAsPlaying := true } } ∧
      song'.flags.isMarkedAsPlaying = true ∧
      m = (if isAnyResult (env.sendNowPlaying song') ServiceCallResult.RESULT_OK then
             ControllerMode.Playing
           else
             ControllerMode.Err) ∧
      Controller.setSongNowPlaying env st =
        Except.ok ({ st with currentSong := some song', mode := m },
          [Output.sendNowPlayingCall song', Output.modeChanged m,
           Output.event ControllerEvent.SongNowPlaying]) := by
  refine ⟨_, _, rfl, rfl, rfl, ?_⟩
  by_cases hok : isAnyResult
      (env.sendNowPlaying { song with flags := { song.flags with isMarkedAsPlaying := true } })
      ServiceCallResult.RESULT_OK = true
  · simp [Controller.setSongNowPlaying, h, hok, Controller.setMode]
  · simp only [Bool.not_eq_true] at hok
    simp [Controller.setSongNowPlaying, h, hok, Controller.setMode]

/-- Closed instance of `setSongNowPlaying_spec` (any-OK outcome). -/
theorem setSongNowPlaying_spec_witness :
    Controller.setSongNowPlaying envAllOk ctrlBase =
      Except.ok ({ ctrlBase with
          currentSong := some { sampleSong with flags := { sampleSong.flags with isMarkedAsPlaying := true } },
          mode := ControllerMode.Playing },
        [Output.sendNowPlayingCall
           { sampleSong with flags := { sampleSong.flags with isMarkedAsPlaying := true } },
         Output.modeChanged ControllerMode.Playing,
         Output.event ControllerEvent.SongNowPlaying]) := by
  obtain ⟨song', m, hs, _, hm, heq⟩ := setSongNowPlaying_spec envAllOk ctrlBase sampleSong rfl
  subst hs
  rw [show m = ControllerMode.Playing from hm.trans (by rfl)] at heq
  exact heq

/-- C3: a snapshot is classified `Empty` iff neither (artist and track
both present) nor a uniqueID nor a duration is JS-truthy-present,
regardless of the `isPlaying` flag; on an `Empty` snapshot an enabled
controller with a current track resets to mode `Base`, dispatching
`ControllerReset` and clearing the current entity (and its timers), and
with no current track it changes no state and emits nothing. -/
theorem emptyState_resets_controller (env : Env) (s : ConnectorState) (st : Controller) :
    (isStateEmpty s = true ↔
      (¬(jsPresentStr s.artist ∧ jsPresentStr s.track) ∧
        ¬jsPresentStr s.uniqueID ∧ ¬jsPresentNat s.duration)) ∧
    (∀ b, isStateEmpty { s with isPlaying := b } = isStateEmpty s) ∧
    (st.isEnabled = true → isStateEmpty s = true →
      ((st.currentSong = none → Controller.onStateChanged env s st = Except.ok (st, [])) ∧
       (∀ song, st.currentSong = some song →
         Controller.onStateChanged env s st =
           Except.ok ({ st with
               mode := ControllerMode.Base,
               currentSong := none,
               playbackTimer := Timer.resetTimer,
               replayDetectionTimer := Timer.resetTimer },
             [Output.event ControllerEvent.ControllerReset,
              Output.modeChanged ControllerMode.Base])))) := by
  refine ⟨?_, fun b => rfl, ?_⟩
  · rw [← strTruthy_eq_true_iff, ← strTruthy_eq_true_iff, ← strTruthy_eq_true_iff,
      ← natTruthy_eq_true_iff]
    cases ha : strTruthy s.artist <;> cases ht : strTruthy s.track <;>
      cases hu : strTruthy s.uniqueID <;> cases hd : natTruthy s.duration <;>
        simp [isStateEmpty, ha, ht, hu, hd]
  · intro hen hempty
    constructor
    · intro hnone
      simp [Controller.onStateChanged, hen, hempty, hnone]
    · intro song hsome
      simp [Controller.onStateChanged, hen, hempty, hsome, Controller.reset,
        Controller.resetState, Controller.setMode]

/-- Closed instance of `emptyState_resets_controller`: the empty snapshot
(playing flag set) against a controller that tracks `sampleSong`. -/
theorem emptyState_resets_controller_witness :
    Controller.onStateChanged envAllOk emptyState ctrlBase =
      Except.ok ({ ctrlBase with
          mode := ControllerMode.Base,
          currentSong := none,
          playbackTimer := Timer.resetTimer,
          replayDetectionTimer := Timer.resetTimer },
        [Output.event ControllerEvent.ControllerReset,
         Output.modeChanged ControllerMode.Base]) :=
  ((emptyState_resets_controller envAllOk emptyState ctrlBase).2.2 rfl rfl).2 sampleSong rfl

/-- C6 counterexample: a podcast snapshot taken while podcast scrobbling
is configured off makes `processNewState` take the skip-and-return path,
which returns before the `isReplayingSong = false` assignment at the end
of the method; starting from a controller whose replay signal is set, the
signal is still `true` after intake completes. -/
theorem processNewState_podcast_keeps_replay :
    (Controller.processNewState envAllOk podcastState ctrlReplayPodcastOff).toOption.map
        (fun p => p.1.isReplayingSong) = some true := by
  decide

/-- C6 (amended): after `processNewState` completes, `isReplayingSong` is
false for every input snapshot that does not take the podcast early-exit
— i.e. whenever podcast scrobbling is on or the snapshot is not a podcast
— including snapshots whose entity fails validation; on the podcast
early-exit the signal is left unchanged. -/
theorem processNewState_clears_replay (env : Env) (s : ConnectorState) (st : Controller)
    (h : st.shouldScrobblePodcasts = true ∨ s.isPodcast = false) :
    ∃ st' outs, Controller.processNewState env s st = Except.ok (st', outs) ∧
      st'.isReplayingSong = false := by
  have hguard : (!st.shouldScrobblePodcasts && s.isPodcast) = false := by
    rcases h with h | h <;> simp [h]
  unfold Controller.processNewState
  simp only [Controller.resetState, hguard, Bool.false_eq_true, if_false]
  cases hpl : s.isPlaying <;> simp only [hpl, Bool.not_true, Bool.not_false, if_true, if_false,
    Bool.false_eq_true, Bool.true_eq_false]
  · split
    next e heq => exact absurd heq (processSong_ne_error env _ _ rfl e)
    next st2 o2 heq => exact ⟨_, _, rfl, rfl⟩
  · split
    next e heq => exact absurd heq (processSong_ne_error env _ _ rfl e)
    next st2 o2 heq => exact ⟨_, _, rfl, rfl⟩

/-- Closed instance of `processNewState_clears_replay`: a non-podcast
snapshot whose entity fails validation, starting from a pending replay
signal. -/
theorem processNewState_clears_replay_witness :
    ∃ st' outs,
      Controller.processNewState envInvalidSong podcastState
        { ctrlBase with isReplayingSong := true } = Except.ok (st', outs) ∧
      st'.isReplayingSong = false :=
  processNewState_clears_replay envInvalidSong podcastState
    { ctrlBase with isReplayingSong := true } (Or.inl rfl)

/-- C8 counterexample: when `pipeline.process` resolves `false`,
`processSong` returns early — the mode stays `Loading` (set at entry) and
no `SongUnrecognized` event is emitted, contradicting the claim that a
false resolution leads to mode `Unknown` plus `SongUnrecognized`. -/
theorem processSong_pipeline_false_stays_loading :
    Controller.processSong envNoPipeline ctrlBase =
      Except.ok ({ ctrlBase with mode := ControllerMode.Loading },
        [Output.modeChanged ControllerMode.Loading]) ∧
    ControllerMode.Loading ≠ ControllerMode.Unknown ∧
    Output.event ControllerEvent.SongUnrecognized ∉
      [Output.modeChanged ControllerMode.Loading] := by
  refine ⟨rfl, by decide, by decide⟩

/-- C8 (amended): the `Unknown`/`SongUnrecognized` outcome is keyed to
the entity's validity, not to the boolean `pipeline.process` resolves to:
when `process` resolves `true` but `currentSong.isValid()` is false,
`processSong` transitions to mode `Unknown` and dispatches
`SongUnrecognized` (then notifies track-updated); when `process`
resolves `false`, `processSong` stops with the mode left at `Loading`
and dispatches nothing. -/
theorem processSong_invalid_unknown (env : Env) (st : Controller) (song : Song)
    (h : st.currentSong = some song) (hp : env.pipelineOk = true)
    (hv : env.songValid = false) :
    Controller.processSong env st =
      Except.ok ({ st with mode := ControllerMode.Unknown },
        [Output.modeChanged ControllerMode.Loading,
         Output.modeChanged ControllerMode.Unknown,
         Output.event ControllerEvent.SongUnrecognized,
         Output.songUpdated]) := by
  unfold Controller.processSong
  simp [Controller.setMode, Controller.setSongNotRecognized, h, hp, hv]

/-- Closed instance of `processSong_invalid_unknown`. -/
theorem processSong_invalid_unknown_witness :
    Controller.processSong envInvalidSong ctrlBase =
      Except.ok ({ ctrlBase with mode := ControllerMode.Unknown },
        [Output.modeChanged ControllerMode.Loading,
         Output.modeChanged ControllerMode.Unknown,
         Output.event ControllerEvent.SongUnrecognized,
         Output.songUpdated]) :=
  processSong_invalid_unknown envInvalidSong ctrlBase sampleSong rfl rfl rfl

/-- C9: `setUserSongData` fails immediately with the precondition error
`"No song is now playing"` when no track is current, and with
`"Unable to set user data for scrobbled song"` when the current track's
`isScrobbled` flag is true — in both failure cases the throw happens
before any effect, so no edit is persisted and the controller state is
unchanged; with a current non-scrobbled track it succeeds, persists the
edit (`saveSongInfo` call) and re-enters normalization (`processSong`,
observable as the `Loading` mode notification). -/
theorem setUserSongData_spec (env : Env) (data : SongData) (st : Controller) :
    (st.currentSong = none →
      Controller.setUserSongData env data st = Except.error "No song is now playing") ∧
    (∀ song, st.currentSong = some song → song.flags.isScrobbled = true →
      Controller.setUserSongData env data st =
        Except.error "Unable to set user data for scrobbled song") ∧
    (∀ song, st.currentSong = some song → song.flags.isScrobbled = false →
      ∃ st' outs, Controller.setUserSongData env data st = Except.ok (st', outs) ∧
        Output.saveSongInfoCall song data ∈ outs ∧
        Output.modeChanged ControllerMode.Loading ∈ outs) := by
  refine ⟨?_, ?_, ?_⟩
  · intro h
    simp [Controller.setUserSongData, h]
  · intro song h hscrob
    simp [Controller.setUserSongData, h, hscrob]
  · intro song h hscrob
    simp only [Controller.setUserSongData, Controller.unprocessSong, h, hscrob,
      Bool.false_eq_true, if_false]
    obtain ⟨st', o, heq⟩ := processSong_ok_loading env
      { st with
          currentSong := some song.resetData,
          playbackTimer := st.playbackTimer.update none,
          replayDetectionTimer := st.replayDetectionTimer.update none }
      song.resetData rfl
    rw [heq]
    exact ⟨_, _, rfl, by simp, by simp⟩

/-- Closed instance of `setUserSongData_spec`: the scrobbled-song failure
case and the success case. -/
theorem setUserSongData_spec_witness :
    Controller.setUserSongData envAllOk sampleData ctrlScrobbled =
      Except.error "Unable to set user data for scrobbled song" ∧
    (∃ st' outs, Controller.setUserSongData envAllOk sampleData ctrlBase = Except.ok (st', outs) ∧
      Output.saveSongInfoCall sampleSong sampleData ∈ outs ∧
      Output.modeChanged ControllerMode.Loading ∈ outs) :=
  ⟨(setUserSongData_spec envAllOk sampleData ctrlScrobbled).2.1
      { sampleSong with flags := { sampleSong.flags with isScrobbled := true } } rfl rfl,
    (setUserSongData_spec envAllOk sampleData ctrlBase).2.2 sampleSong rfl rfl⟩

/-- C10: `resetSongData` checks only that a track is current (failing
with the precondition error `"No song is now playing"` otherwise); for
every current track — in particular one whose `isScrobbled` flag is true
— it succeeds: it resets the track's info, removes its saved user edits
(`removeSongInfo` call) and re-enters normalization (`processSong`,
observable as the `Loading` mode notification), rather than rejecting. -/
theorem resetSongData_spec (env : Env) (st : Controller) :
    (st.currentSong = none →
      Controller.resetSongData env st = Except.error "No song is now playing") ∧
    (∀ song, st.currentSong = some song →
      ∃ st' outs, Controller.resetSongData env st = Except.ok (st', outs) ∧
        Output.removeSongInfoCall song.resetInfo ∈ outs ∧
        Output.modeChanged ControllerMode.Loading ∈ outs) := by
  constructor
  · intro h
    simp [Controller.resetSongData, h]
  · intro song h
    simp only [Controller.resetSongData, Controller.unprocessSong, h]
    obtain ⟨st', o, heq⟩ := processSong_ok_loading env
      { st with
          currentSong := some song.resetInfo.resetData,
          playbackTimer := st.playbackTimer.update none,
          replayDetectionTimer := st.replayDetectionTimer.update none }
      song.resetInfo.resetData rfl
    rw [heq]
    exact ⟨_, _, rfl, by simp, by simp⟩

/-- Closed instance of `resetSongData_spec`: a current track whose
`isScrobbled` flag is true still succeeds. -/
theorem resetSongData_spec_witness :
    ∃ st' outs, Controller.resetSongData envAllOk ctrlScrobbled = Except.ok (st', outs) ∧
      Output.removeSongInfoCall
        { sampleSong with flags := { sampleSong.flags with isScrobbled := true } }.resetInfo ∈ outs ∧
      Output.modeChanged ControllerMode.Loading ∈ outs :=
  (resetSongData_spec envAllOk ctrlScrobbled).2
    { sampleSong with flags := { sampleSong.flags with isScrobbled := true } } rfl
